import Mathlib

/-!
Verification development for the PACE promotion-roster tool.

The Python sources embedded here are `constants.py`, `hyt_test_exemption.py`,
`initial_mel_generator.py` and `main.py`.  Calendar dates model Python
`datetime` values restricted to their date part (all comparisons in the
sources are lexicographic on year, month, day and never look at the time
fields of the values involved).  Policy tables are embedded as association
lists with `String` keys, mirroring the Python dicts keyed by grade strings.
-/

namespace PACE

/-- A proleptic-Gregorian calendar date, modelling the date part of a Python
`datetime` value. -/
structure Date where
  year : Nat
  month : Nat
  day : Nat
deriving DecidableEq, Repr

/-- Lexicographic strict comparison of dates, modelling Python `datetime`
comparison (the sources compare only values with zeroed time parts). -/
def dateLt (a b : Date) : Bool :=
  decide (a.year < b.year) ||
    (a.year == b.year &&
      (decide (a.month < b.month) ||
        (a.month == b.month && decide (a.day < b.day))))

/-- Gregorian leap-year rule, as used by Python `datetime` arithmetic. -/
def isLeap (y : Nat) : Bool :=
  (y % 4 == 0 && y % 100 != 0) || y % 400 == 0

/-- Number of days in a month of a given year. -/
def daysInMonth (y m : Nat) : Nat :=
  match m with
  | 2 => if isLeap y then 29 else 28
  | 4 => 30
  | 6 => 30
  | 9 => 30
  | 11 => 30
  | _ => 31

/-- `relativedelta(years := n)` addition: the month and day are preserved and
the day is clamped to the length of the target month (only Feb 29 is ever
clamped). -/
def addYears (d : Date) (n : Nat) : Date :=
  { year := d.year + n, month := d.month,
    day := min d.day (daysInMonth (d.year + n) d.month) }

/-- The calendar day immediately before `d` (total; at year 0, Jan 1 the
`Nat` year saturates, a region no embedded computation reaches). -/
def prevDay (d : Date) : Date :=
  if d.day > 1 then { d with day := d.day - 1 }
  else if d.month > 1 then
    { year := d.year, month := d.month - 1,
      day := daysInMonth d.year (d.month - 1) }
  else { year := d.year - 1, month := 12, day := 31 }

/-- Subtract `n` calendar days, modelling `datetime - relativedelta(days=n)`. -/
def subDays (d : Date) : Nat → Date
  | 0 => d
  | n + 1 => subDays (prevDay d) n

/-!  Policy tables from `constants.py`. -/

/-- `MAIN_HIGHER_TENURE` from constants.py: standard HYT limits in years. -/
def MAIN_HIGHER_TENURE : List (String × Nat) :=
  [("AB", 6), ("AMN", 6), ("A1C", 8), ("SRA", 10),
   ("SSG", 20), ("TSG", 22), ("MSG", 24), ("SMS", 26)]

/-- `EXCEPTION_HIGHER_TENURE` from constants.py: extended HYT limits. -/
def EXCEPTION_HIGHER_TENURE : List (String × Nat) :=
  [("AB", 8), ("AMN", 8), ("A1C", 10), ("SRA", 12),
   ("SSG", 22), ("TSG", 24), ("MSG", 26), ("SMS", 28)]

/-- `EXCEPTION_HYT_START_DATE = datetime(2023, 12, 8)` from constants.py. -/
def EXCEPTION_HYT_START_DATE : Date := ⟨2023, 12, 8⟩

/-- `EXCEPTION_HYT_END_DATE = datetime(2026, 9, 30)` from constants.py. -/
def EXCEPTION_HYT_END_DATE : Date := ⟨2026, 9, 30⟩

/-- `SCODS` from constants.py: static closeout date (day-month string) per
grade. -/
def SCODS : List (String × String) :=
  [("SRA", "31-MAR"), ("SSG", "31-JAN"), ("TSG", "30-NOV"),
   ("MSG", "30-SEP"), ("SMS", "31-JUL")]

/-- `SMALL_UNIT_THRESHOLD` from constants.py. -/
def SMALL_UNIT_THRESHOLD : Nat := 10

/-- `PDF_COLUMNS` from constants.py: the column projection applied to the
roster before it is stored for report rendering (`main.py`,
`pdf_df = processed_df[PDF_COLUMNS]`). -/
def PDF_COLUMNS : List String :=
  ["FULL_NAME", "GRADE", "DATE_ARRIVED_STATION", "DAFSC",
   "ASSIGNED_PAS_CLEARTEXT", "DOR", "TAFMSD", "ASSIGNED_PAS"]

/-- `INITIAL_MEL_HEADER_ROW` from constants.py: the header row rendered above
those columns. -/
def INITIAL_MEL_HEADER_ROW : List String :=
  ["FULL NAME", "GRADE", "DAS", "DAFSC", "UNIT", "DOR", "TAFMSD", "PASCODE"]

/-!  Date formatting and parsing used by `get_accounting_date`
(`initial_mel_generator.py`, lines 31-41). -/

/-- Uppercase month abbreviations accepted by `strptime` with format code
`%b` on the SCOD strings of constants.py. -/
def MONTH_ABBREVS : List (String × Nat) :=
  [("JAN", 1), ("FEB", 2), ("MAR", 3), ("APR", 4), ("MAY", 5), ("JUN", 6),
   ("JUL", 7), ("AUG", 8), ("SEP", 9), ("OCT", 10), ("NOV", 11), ("DEC", 12)]

/-- Full month names emitted by `strftime` format code `%B`. -/
def MONTH_NAMES : List String :=
  ["January", "February", "March", "April", "May", "June", "July",
   "August", "September", "October", "November", "December"]

/-- Name of month `m` (1-based). -/
def monthName (m : Nat) : String :=
  MONTH_NAMES.getD (m - 1) ""

/-- Zero-padded two-digit rendering of `n`, as `strftime` `%d` produces. -/
def pad2 (n : Nat) : String :=
  if n < 10 then "0" ++ Nat.repr n else Nat.repr n

/-- `DATE_FORMAT_DISPLAY = "%d %B %Y"` from constants.py applied to a date:
zero-padded day, full month name, year. -/
def formatDisplay (d : Date) : String :=
  pad2 d.day ++ (" " ++ monthName d.month ++ (" " ++ Nat.repr d.year))

/-- Split a character list at every occurrence of `sep` (the field
separation `strptime` performs on a `%d-%b-%Y` pattern). -/
def splitOnChar (sep : Char) : List Char → List (List Char)
  | [] => [[]]
  | c :: cs =>
    let r := splitOnChar sep cs
    if c == sep then [] :: r
    else
      match r with
      | [] => [[c]]
      | g :: gs => (c :: g) :: gs

/-- Decimal digit value of a character, if it is a digit. -/
def digitVal (c : Char) : Option Nat :=
  if '0' ≤ c ∧ c ≤ '9' then some (c.toNat - '0'.toNat) else none

/-- Accumulate a decimal number over a digit list, failing on any
non-digit. -/
def digitsToNatAux (acc : Nat) : List Char → Option Nat
  | [] => some acc
  | c :: cs =>
    match digitVal c with
    | some d => digitsToNatAux (acc * 10 + d) cs
    | none => none

/-- Parse a nonempty all-digit character list as a decimal number. -/
def digitsToNat : List Char → Option Nat
  | [] => none
  | cs => digitsToNatAux 0 cs

/-- Model of `datetime.strptime(f'{scod}-{year}', "%d-%b-%Y")`: the decimal
rendering of `year` contains no dash, so the composed string parses exactly
when the day-month part `scod` does, yielding that day and month in `year`. -/
def parseScodWithYear (scod : String) (year : Nat) : Option Date :=
  match splitOnChar '-' scod.data with
  | [dCs, mCs] =>
    match digitsToNat dCs, MONTH_ABBREVS.lookup (String.mk mCs) with
    | some d, some m =>
      if 1 ≤ d ∧ d ≤ daysInMonth year m then some ⟨year, m, d⟩ else none
    | _, _ => none
  | _ => none

/-- The date built inside `get_accounting_date` before formatting: the
grade's SCOD for `year`, minus 119 days, with the day field overwritten
by 3 (the `replace(day=3, ...)` call; the time fields it also sets never
reach the formatted output).  `none` models the paths on which the Python
body raises and the `except` arm runs: a grade absent from `SCODS` (whose
`None` makes `strptime` fail) or an unparseable SCOD string. -/
def accountingParts (grade : String) (year : Nat) : Option Date :=
  match SCODS.lookup grade with
  | none => none
  | some scod =>
    match parseScodWithYear scod year with
    | none => none
    | some d =>
      let acc := subDays d 119
      some { acc with day := 3 }

/-- `get_accounting_date(grade, year)` from initial_mel_generator.py:
formats the adjusted accounting date, or returns the literal error string
when the computation raised. -/
def get_accounting_date (grade : String) (year : Nat) : String :=
  match accountingParts grade year with
  | some d => formatDisplay d
  | none => "Error calculating date"

/-!  Higher-tenure exemption logic.  The window membership test is embedded
from `hyt_test_exemption.py` line 107; which limit is applied is modelled
from the spec because `board_filter.py` is not part of the sources here. -/

/-- `EXCEPTION_HYT_START_DATE < hyt_date < EXCEPTION_HYT_END_DATE` from
hyt_test_exemption.py line 107: strict comparison against both window
endpoints. -/
def mainHytInExemption (hytDate : Date) : Bool :=
  dateLt EXCEPTION_HYT_START_DATE hytDate && dateLt hytDate EXCEPTION_HYT_END_DATE

/-- `tafmsd + relativedelta(years=MAIN_HIGHER_TENURE.get(grade))` from
hyt_test_exemption.py line 60, for a grade present in the table. -/
def standardHytDate (tafmsd : Date) (mainYears : Nat) : Date :=
  addYears tafmsd mainYears

/-- Modelled from the spec: `board_filter.py` is not among the sources; §4.1
rule 6 applies the exception higher-tenure limit exactly when the standard
HYT date lies strictly inside the exception window, the membership test
being the one embedded from hyt_test_exemption.py line 107. -/
def hytExceptionApplies (grade : String) (tafmsd : Date) : Bool :=
  match MAIN_HIGHER_TENURE.lookup grade with
  | some m => mainHytInExemption (standardHytDate tafmsd m)
  | none => false

/-- Modelled from the spec: the effective HYT date compared with the cycle
cutoff — the exception limit when the exemption applies, else the standard
limit (`board_filter.py` is not among the sources). -/
def effectiveHytDate (grade : String) (tafmsd : Date) : Option Date :=
  match MAIN_HIGHER_TENURE.lookup grade, EXCEPTION_HIGHER_TENURE.lookup grade with
  | some m, some e =>
    if hytExceptionApplies grade tafmsd then some (addYears tafmsd e)
    else some (addYears tafmsd m)
  | _, _ => none

/-!  Roster categorization.  `roster_processor.py` is not among the sources;
the pipeline below is modelled from spec §4.2 and §3 (RosterPartition). -/

/-- The grade domain of the policy tables (keys of `GRADE_MAP` and of the
tenure tables in constants.py). -/
def GRADES : List String :=
  ["AB", "AMN", "A1C", "SRA", "SSG", "TSG", "MSG", "SMS"]

/-- A raw roster row before structural parsing: the required textual fields
of the input schema, dates still strings. -/
structure RawRow where
  full_name : String
  grade : String
  assigned_pas : String
  assigned_pas_cleartext : String
  dafsc : String
  date_of_rank : String
  date_arrived_station : String
  tafmsd : String
deriving DecidableEq, Repr

/-- A parsed member record (spec §3 MemberRecord): dates parsed, grade in
domain. -/
structure MemberRecord where
  full_name : String
  grade : String
  assigned_pas : String
  assigned_pas_cleartext : String
  dafsc : String
  date_of_rank : Date
  date_arrived_station : Date
  tafmsd : Date
deriving DecidableEq, Repr

/-- Parse a `%d-%b-%Y` date string such as `15-Jan-2003` (the roster date
format, `DATE_FORMAT_INPUT` in constants.py; the month abbreviation is
matched case-insensitively as `strptime` does). -/
def parseDateDMY (s : String) : Option Date :=
  match splitOnChar '-' s.data with
  | [dCs, mCs, yCs] =>
    match digitsToNat dCs,
        MONTH_ABBREVS.lookup (String.mk (mCs.map Char.toUpper)),
        digitsToNat yCs with
    | some d, some m, some y =>
      if 1 ≤ d ∧ d ≤ daysInMonth y m then some ⟨y, m, d⟩ else none
    | _, _, _ => none
  | _ => none

/-- Modelled from the spec: `roster_processor.py` is not among the sources;
§4.2 has structural parsing fail on an unparseable date or an out-of-domain
grade, excluding the row from categorization. -/
def parseRow (r : RawRow) : Option MemberRecord :=
  if GRADES.contains r.grade then
    match parseDateDMY r.date_of_rank, parseDateDMY r.date_arrived_station,
        parseDateDMY r.tafmsd with
    | some dor, some das, some t =>
      some ⟨r.full_name, r.grade, r.assigned_pas, r.assigned_pas_cleartext,
            r.dafsc, dor, das, t⟩
    | _, _, _ => none
  else none

/-- The verdict categories of spec §3 EligibilityResult. -/
inductive Category where
  | eligible
  | ineligible
  | btz
deriving DecidableEq, Repr

/-- The four row collections of spec §3 RosterPartition. -/
structure RosterPartition where
  eligible : List RawRow
  ineligible : List RawRow
  btz : List RawRow
  errorLog : List RawRow
deriving DecidableEq, Repr

/-- Modelled from the spec: `roster_processor.py` is not among the sources;
§4.2 parses each row, routes structural failures to the error log without
aborting the batch, and otherwise files the row under the category the
evaluator returns.  The evaluator is the `classify` argument, since
`board_filter.py` is likewise absent. -/
def roster_processor (classify : MemberRecord → Category) :
    List RawRow → RosterPartition
  | [] => ⟨[], [], [], []⟩
  | r :: rs =>
    let p := roster_processor classify rs
    match parseRow r with
    | none => { p with errorLog := r :: p.errorLog }
    | some mr =>
      match classify mr with
      | .eligible => { p with eligible := r :: p.eligible }
      | .ineligible => { p with ineligible := r :: p.ineligible }
      | .btz => { p with btz := r :: p.btz }

/-!  Small-unit grouping, modelled from spec §4.2 (the grouping code lives in
`roster_processor.py`, not among the sources); the threshold is
`SMALL_UNIT_THRESHOLD` from constants.py. -/

/-- Modelled from the spec: the units kept in per-unit reporting — eligible
count at least the small-unit threshold. -/
def standaloneUnits (groups : List (String × List α)) : List (String × List α) :=
  groups.filter (fun g => decide (SMALL_UNIT_THRESHOLD ≤ g.2.length))

/-- Modelled from the spec: the units removed from per-unit reporting —
eligible count strictly below the small-unit threshold. -/
def smallUnits (groups : List (String × List α)) : List (String × List α) :=
  groups.filter (fun g => decide (g.2.length < SMALL_UNIT_THRESHOLD))

/-- Modelled from the spec: all rows accumulated into the single cross-unit
small-unit grouping. -/
def smallUnitRows (groups : List (String × List α)) : List α :=
  (smallUnits groups).flatMap (fun g => g.2)

/-!  Column projection handed to report rendering: `main.py` computes
`pdf_df = processed_df[PDF_COLUMNS]`. -/

/-- Project a record (a map from column name to cell value) onto a column
list, in that order — the meaning of `df[cols]` on one row. -/
def selectColumns (cols : List String) (record : String → String) : List String :=
  cols.map record

/-- The column order asserted by spec §6 for report rendering, written out
for comparison with `PDF_COLUMNS`: name, grade, unit-code, AFSC, cleartext
unit, date-of-rank, service date, unit-code. -/
def SPEC_CLAIMED_COLUMNS : List String :=
  ["FULL_NAME", "GRADE", "ASSIGNED_PAS", "DAFSC",
   "ASSIGNED_PAS_CLEARTEXT", "DOR", "TAFMSD", "ASSIGNED_PAS"]

/-!  Promotion quota.  `promotion_eligible_counter.py` is not among the
sources; spec §4.3 treats the concrete curve as injected per-cycle
promotion percentages. -/

/-- Modelled from the spec: injected must-promote percentage per grade
cycle (concrete values are placeholders for the injected policy table). -/
def MUST_PROMOTE_PCT : List (String × Nat) :=
  [("SRA", 15), ("SSG", 15), ("TSG", 10), ("MSG", 5), ("SMS", 5)]

/-- Modelled from the spec: injected promote-now percentage per grade
cycle. -/
def PROMOTE_NOW_PCT : List (String × Nat) :=
  [("SRA", 5), ("SSG", 5), ("TSG", 5), ("MSG", 5), ("SMS", 5)]

/-- Modelled from the spec: `get_promotion_eligibility(count, cycle)` from
`promotion_eligible_counter.py` (not among the sources) — the quota pair
derived by applying the cycle's percentages to the eligible count with
integer floor. -/
def get_promotion_eligibility (count : Nat) (cycle : String) : Nat × Nat :=
  (count * ((MUST_PROMOTE_PCT.lookup cycle).getD 0) / 100,
   count * ((PROMOTE_NOW_PCT.lookup cycle).getD 0) / 100)

/-!  Per-pascode PDF emission order, from `generate_roster_pdf`
(`initial_mel_generator.py`, lines 569-607). -/

/-- The pascodes collected from the three data lists: column 8 of eligible
and BTZ rows, column 3 of ineligible rows, guarded by the row being long
enough (the `len(row) > 7` / `len(row) > 2` checks). -/
def collectedPascodes (elig inel btz : List (List String)) : List String :=
  (elig.filterMap (fun row => row.get? 7)) ++
    (inel.filterMap (fun row => row.get? 2)) ++
    (btz.filterMap (fun row => row.get? 7))

/-- `unique_pascodes = sorted(list(set(...)))`: duplicates removed, then
sorted in ascending lexicographic string order. -/
def uniquePascodes (elig inel btz : List (List String)) : List String :=
  List.insertionSort (· ≤ ·) (collectedPascodes elig inel btz).dedup

/-- Whether any row of the three lists carries pascode `p` in its pascode
column (the per-pascode filters of lines 601-603 produce a nonempty list). -/
def pascodeHasData (elig inel btz : List (List String)) (p : String) : Bool :=
  elig.any (fun row => row.get? 7 == some p) ||
    inel.any (fun row => row.get? 2 == some p) ||
    btz.any (fun row => row.get? 7 == some p)

/-- The pascodes for which `generate_roster_pdf` actually emits a per-unit
PDF, in iteration order: the sorted unique pascodes, skipping any absent
from `pascode_map` (line 596) and any with no matching rows (line 606). -/
def emittedPascodes (elig inel btz : List (List String))
    (pmap : List (String × String)) : List String :=
  (uniquePascodes elig inel btz).filter
    (fun p => (pmap.lookup p).isSome && pascodeHasData elig inel btz p)

/-!  Concrete sample data used to instantiate the universally quantified
theorems below at closed inputs. -/

/-- A structurally well-formed sample roster row. -/
def sampleRow1 : RawRow :=
  ⟨"ALPHA, A", "SSG", "AB1CFXXX", "FORCE SUPPORT", "3S051",
   "01-Jun-2018", "01-Jun-2019", "15-Jan-2004"⟩

/-- A structurally malformed sample roster row: its grade is outside the
policy domain and its service date is unparseable. -/
def sampleRow2 : RawRow :=
  ⟨"BRAVO, B", "XXX", "AB1CFYYY", "FORCE SUPPORT", "3S051",
   "01-Jun-2018", "01-Jun-2019", "BAD-DATE"⟩

/-- A sample unit grouping: one unit with nine eligible rows, one with
ten. -/
def sampleGroups : List (String × List Nat) :=
  [("AB1CFAAA", List.range 9), ("AB1CFBBB", List.range 10)]

/-- Sample eligible rows for the pascode-emission theorems: two rows whose
pascode column (index 7) holds distinct unit codes. -/
def sampleEligRows : List (List String) :=
  [["ALPHA, A", "SSG", "01-Jun-2019", "3S051", "FORCE SUPPORT",
    "01-Jun-2018", "15-Jan-2004", "AB1CFBBB"],
   ["BRAVO, B", "SSG", "01-Jun-2019", "3S051", "FORCE SUPPORT",
    "01-Jun-2018", "15-Jan-2004", "AB1CFAAA"]]

/-- Sample pascode map covering only one of the two sample unit codes. -/
def samplePascodeMap : List (String × String) := [("AB1CFAAA", "SR1")]

end PACE

namespace PACE

/-- Claim C3: for every grade in the policy tables, the exception
higher-tenure limit is at least the main higher-tenure limit, so applying
the exception can only extend tenure eligibility. -/
theorem exception_tenure_ge_main (g : String) (m : Nat)
    (hm : MAIN_HIGHER_TENURE.lookup g = some m) :
    ∃ e, EXCEPTION_HIGHER_TENURE.lookup g = some e ∧ m ≤ e := by
  have hg : g = "AB" ∨ g = "AMN" ∨ g = "A1C" ∨ g = "SRA" ∨ g = "SSG" ∨
      g = "TSG" ∨ g = "MSG" ∨ g = "SMS" := by
    by_contra hc
    push_neg at hc
    obtain ⟨h1, h2, h3, h4, h5, h6, h7, h8⟩ := hc
    simp [MAIN_HIGHER_TENURE, List.lookup_cons, beq_eq_false_iff_ne.mpr h1,
      beq_eq_false_iff_ne.mpr h2, beq_eq_false_iff_ne.mpr h3,
      beq_eq_false_iff_ne.mpr h4, beq_eq_false_iff_ne.mpr h5,
      beq_eq_false_iff_ne.mpr h6, beq_eq_false_iff_ne.mpr h7,
      beq_eq_false_iff_ne.mpr h8] at hm
  rcases hg with rfl | rfl | rfl | rfl | rfl | rfl | rfl | rfl <;>
    simp_all [MAIN_HIGHER_TENURE, EXCEPTION_HIGHER_TENURE, List.lookup_cons] <;>
    omega

/-- Witness for C3 at grade SSG, whose main limit is 20 years. -/
theorem exception_tenure_ge_main_witness :
    ∃ e, EXCEPTION_HIGHER_TENURE.lookup "SSG" = some e ∧ 20 ≤ e :=
  exception_tenure_ge_main "SSG" 20 (by decide)

/-- Claim C9: for a grade absent from SCODS, `get_accounting_date` does not
surface a structural failure; it returns the literal error string. -/
theorem accounting_unknown_grade_error (grade : String) (year : Nat)
    (h : SCODS.lookup grade = none) :
    get_accounting_date grade year = "Error calculating date" := by
  simp [get_accounting_date, accountingParts, h]

/-- Witness for C9 at the unknown grade CMS. -/
theorem accounting_unknown_grade_error_witness :
    get_accounting_date "CMS" 2025 = "Error calculating date" :=
  accounting_unknown_grade_error "CMS" 2025 (by decide)

/-- Claim C6: for every grade cycle the quota of an eligible count of zero
is (0, 0), and both quota components are non-negative for every count. -/
theorem quota_zero_and_nonneg (cycle : String) :
    get_promotion_eligibility 0 cycle = (0, 0) ∧
      ∀ count : Nat, 0 ≤ (get_promotion_eligibility count cycle).1 ∧
        0 ≤ (get_promotion_eligibility count cycle).2 := by
  refine ⟨?_, fun count => ⟨Nat.zero_le _, Nat.zero_le _⟩⟩
  simp [get_promotion_eligibility]

/-- Claim C7: for a fixed grade cycle, both quota components are monotone
non-decreasing in the eligible count. -/
theorem quota_monotone (cycle : String) (m n : Nat) (h : m ≤ n) :
    (get_promotion_eligibility m cycle).1 ≤ (get_promotion_eligibility n cycle).1 ∧
      (get_promotion_eligibility m cycle).2 ≤ (get_promotion_eligibility n cycle).2 :=
  ⟨Nat.div_le_div_right (Nat.mul_le_mul_right _ h),
   Nat.div_le_div_right (Nat.mul_le_mul_right _ h)⟩

/-- Witness for C7 at counts 35 ≤ 60 on cycle SSG. -/
theorem quota_monotone_witness :
    (get_promotion_eligibility 35 "SSG").1 ≤ (get_promotion_eligibility 60 "SSG").1 ∧
      (get_promotion_eligibility 35 "SSG").2 ≤ (get_promotion_eligibility 60 "SSG").2 :=
  quota_monotone "SSG" 35 60 (by decide)

/-- Counterexample for C5: the column order the spec asserts (unit code in
third position) differs from the order the pipeline actually emits —
`PDF_COLUMNS` and the rendered header carry the date-arrived-station field
in third position, and the unit code appears only in eighth position. -/
theorem pdf_columns_not_spec_order :
    PDF_COLUMNS ≠ SPEC_CLAIMED_COLUMNS ∧
      PDF_COLUMNS.get? 2 = some "DATE_ARRIVED_STATION" ∧
      SPEC_CLAIMED_COLUMNS.get? 2 = some "ASSIGNED_PAS" ∧
      INITIAL_MEL_HEADER_ROW.get? 2 = some "DAS" := by
  decide

/-- Claim C5 (amended): the pipeline hands report rendering each row
projected onto the fixed column order name, grade, date arrived station,
AFSC, cleartext unit, date of rank, service date, unit code — exactly
`PDF_COLUMNS`, preserved for every record regardless of representation. -/
theorem pdf_row_column_order (record : String → String) :
    selectColumns PDF_COLUMNS record =
      [record "FULL_NAME", record "GRADE", record "DATE_ARRIVED_STATION",
       record "DAFSC", record "ASSIGNED_PAS_CLEARTEXT", record "DOR",
       record "TAFMSD", record "ASSIGNED_PAS"] := rfl

/-- Claim C1: the HYT exemption window is open at both ends — the exception
limit is applied iff the standard HYT date lies strictly between the window
endpoints, and a standard HYT date equal to either endpoint is excluded. -/
theorem hyt_exemption_window_open (grade : String) (t : Date) (m : Nat)
    (hm : MAIN_HIGHER_TENURE.lookup grade = some m) :
    (hytExceptionApplies grade t = true ↔
      (dateLt EXCEPTION_HYT_START_DATE (standardHytDate t m) = true ∧
        dateLt (standardHytDate t m) EXCEPTION_HYT_END_DATE = true))
    ∧ (standardHytDate t m = EXCEPTION_HYT_START_DATE →
        hytExceptionApplies grade t = false)
    ∧ (standardHytDate t m = EXCEPTION_HYT_END_DATE →
        hytExceptionApplies grade t = false) := by
  have key : hytExceptionApplies grade t =
      mainHytInExemption (standardHytDate t m) := by
    unfold hytExceptionApplies
    rw [hm]
  rw [key]
  refine ⟨?_, ?_, ?_⟩
  · simp [mainHytInExemption, Bool.and_eq_true]
  · intro h
    rw [h]
    decide
  · intro h
    rw [h]
    decide

/-- Witness for C1: an SSG whose standard HYT date lands exactly on the
window start (TAFMSD 2003-12-08 + 20 years) and one landing exactly on the
window end (TAFMSD 2006-09-30 + 20 years) are both excluded. -/
theorem hyt_exemption_window_open_witness :
    hytExceptionApplies "SSG" ⟨2003, 12, 8⟩ = false ∧
      hytExceptionApplies "SSG" ⟨2006, 9, 30⟩ = false :=
  ⟨(hyt_exemption_window_open "SSG" ⟨2003, 12, 8⟩ 20 (by decide)).2.1 (by decide),
   (hyt_exemption_window_open "SSG" ⟨2006, 9, 30⟩ 20 (by decide)).2.2 (by decide)⟩

/-- Rewriting a string equation under a right append context. -/
lemma append_left_congr {a b : String} (t : String) (h : a = b) :
    a ++ t = b ++ t := by rw [h]

set_option maxRecDepth 8000 in
/-- Claim C8 (amended): for every grade in SCODS and every year, the
accounting date is the SCOD minus 119 days with its day field overwritten
by 3 before formatting, so the formatted output always starts with day 03
(the computed offset day is discarded; it shows through only when it is
itself 3). -/
theorem accounting_day_always_three (grade : String) (year : Nat)
    (h : (SCODS.lookup grade).isSome = true) :
    ∃ d, accountingParts grade year = some d ∧ d.day = 3 ∧
      get_accounting_date grade year = formatDisplay d ∧
      get_accounting_date grade year =
        "03" ++ (" " ++ monthName d.month ++ (" " ++ Nat.repr d.year)) := by
  have hg : grade = "SRA" ∨ grade = "SSG" ∨ grade = "TSG" ∨ grade = "MSG" ∨
      grade = "SMS" := by
    by_contra hc
    push_neg at hc
    obtain ⟨h1, h2, h3, h4, h5⟩ := hc
    simp [SCODS, List.lookup_cons, beq_eq_false_iff_ne.mpr h1,
      beq_eq_false_iff_ne.mpr h2, beq_eq_false_iff_ne.mpr h3,
      beq_eq_false_iff_ne.mpr h4, beq_eq_false_iff_ne.mpr h5] at h
  rcases hg with rfl | rfl | rfl | rfl | rfl <;>
    exact ⟨_, rfl, rfl, rfl, append_left_congr _ (show pad2 3 = "03" from rfl)⟩

set_option maxRecDepth 8000 in
/-- Witness for C8 at grade MSG, year 2025. -/
theorem accounting_day_always_three_witness :
    ∃ d, accountingParts "MSG" 2025 = some d ∧ d.day = 3 ∧
      get_accounting_date "MSG" 2025 = formatDisplay d ∧
      get_accounting_date "MSG" 2025 =
        "03" ++ (" " ++ monthName d.month ++ (" " ++ Nat.repr d.year)) :=
  accounting_day_always_three "MSG" 2025 (by decide)

set_option maxRecDepth 8000 in
/-- Counterexample for C8 as stated: for grade SRA in leap year 2024 the
true 119-day offset of the SCOD is 2023-12-03, whose day is already 3, so
the day of the true offset date does appear in the output. -/
theorem accounting_true_offset_day_appears :
    subDays ⟨2024, 3, 31⟩ 119 = ⟨2023, 12, 3⟩ ∧
      accountingParts "SRA" 2024 = some ⟨2023, 12, 3⟩ ∧
      get_accounting_date "SRA" 2024 = "03 December 2023" := by
  refine ⟨by decide, by decide, ?_⟩
  decide

/-- The roster partition equals four filters of the input rows, one per
destination bucket. -/
lemma roster_processor_eq_filters (classify : MemberRecord → Category)
    (rows : List RawRow) :
    roster_processor classify rows =
      ⟨rows.filter (fun r => (parseRow r).any (fun mr => classify mr == .eligible)),
       rows.filter (fun r => (parseRow r).any (fun mr => classify mr == .ineligible)),
       rows.filter (fun r => (parseRow r).any (fun mr => classify mr == .btz)),
       rows.filter (fun r => (parseRow r).isNone)⟩ := by
  induction rows with
  | nil => rfl
  | cons r rs ih =>
    cases hp : parseRow r with
    | none =>
      simp [roster_processor, ih, List.filter_cons, hp]
    | some mr =>
      cases hc : classify mr <;>
        simp [roster_processor, ih, List.filter_cons, hp, hc]

/-- The four bucket sizes of the partition always sum to the input size. -/
lemma roster_processor_length (classify : MemberRecord → Category)
    (rows : List RawRow) :
    (roster_processor classify rows).eligible.length +
      (roster_processor classify rows).ineligible.length +
      (roster_processor classify rows).btz.length +
      (roster_processor classify rows).errorLog.length = rows.length := by
  induction rows with
  | nil => rfl
  | cons r rs ih =>
    cases hp : parseRow r with
    | none =>
      simp only [roster_processor, hp, List.length_cons]
      omega
    | some mr =>
      cases hc : classify mr <;>
        (simp only [roster_processor, hp, hc, List.length_cons]; omega)

/-- Claim C2: roster processing partitions the rows exhaustively and
disjointly — the three category sizes sum to the input size minus the error
log, every structurally unparseable row lands in the error log and in no
category, and every parseable row avoids the error log and lands in exactly
the category the evaluator assigns it. -/
theorem roster_partition_coverage (classify : MemberRecord → Category)
    (rows : List RawRow) :
    ((roster_processor classify rows).eligible.length +
        (roster_processor classify rows).ineligible.length +
        (roster_processor classify rows).btz.length =
      rows.length - (roster_processor classify rows).errorLog.length)
    ∧ (∀ r, r ∈ rows → parseRow r = none →
        r ∈ (roster_processor classify rows).errorLog ∧
        r ∉ (roster_processor classify rows).eligible ∧
        r ∉ (roster_processor classify rows).ineligible ∧
        r ∉ (roster_processor classify rows).btz)
    ∧ (∀ r mr, r ∈ rows → parseRow r = some mr →
        r ∉ (roster_processor classify rows).errorLog ∧
        (r ∈ (roster_processor classify rows).eligible ↔ classify mr = .eligible) ∧
        (r ∈ (roster_processor classify rows).ineligible ↔ classify mr = .ineligible) ∧
        (r ∈ (roster_processor classify rows).btz ↔ classify mr = .btz)) := by
  refine ⟨?_, ?_, ?_⟩
  · have h := roster_processor_length classify rows
    omega
  · intro r hr hp
    rw [roster_processor_eq_filters]
    refine ⟨?_, ?_, ?_, ?_⟩
    · simp [List.mem_filter, hr, hp]
    · simp [List.mem_filter, hp]
    · simp [List.mem_filter, hp]
    · simp [List.mem_filter, hp]
  · intro r mr hr hp
    rw [roster_processor_eq_filters]
    refine ⟨?_, ?_, ?_, ?_⟩
    · simp [List.mem_filter, hp]
    · simp [List.mem_filter, hr, hp, Option.any]
    · simp [List.mem_filter, hr, hp, Option.any]
    · simp [List.mem_filter, hr, hp, Option.any]

/-- Witness for C2 on a two-row roster (one parseable, one malformed) under
an evaluator that marks every parsed record eligible. -/
theorem roster_partition_coverage_witness :
    ((roster_processor (fun _ => Category.eligible) [sampleRow1, sampleRow2]).eligible.length +
        (roster_processor (fun _ => Category.eligible) [sampleRow1, sampleRow2]).ineligible.length +
        (roster_processor (fun _ => Category.eligible) [sampleRow1, sampleRow2]).btz.length =
      2 - (roster_processor (fun _ => Category.eligible) [sampleRow1, sampleRow2]).errorLog.length)
    ∧ sampleRow2 ∈ (roster_processor (fun _ => Category.eligible) [sampleRow1, sampleRow2]).errorLog
    ∧ sampleRow1 ∈ (roster_processor (fun _ => Category.eligible) [sampleRow1, sampleRow2]).eligible := by
  have h := roster_partition_coverage (fun _ => Category.eligible) [sampleRow1, sampleRow2]
  refine ⟨by simpa using h.1, ?_, ?_⟩
  · exact (h.2.1 sampleRow2 (by simp) (by decide)).1
  · exact ((h.2.2 sampleRow1
      ⟨"ALPHA, A", "SSG", "AB1CFXXX", "FORCE SUPPORT", "3S051",
        ⟨2018, 6, 1⟩, ⟨2019, 6, 1⟩, ⟨2004, 1, 15⟩⟩
      (by simp) (by decide)).2.1).mpr rfl

/-- Claim C4: a unit is merged into the small-unit grouping iff its eligible
count is strictly below the threshold of 10; in particular a unit with 9
eligible rows is removed from per-unit reporting and its rows accumulate in
the merged grouping, while a unit with 10 is reported standalone. -/
theorem small_unit_threshold_split {α : Type} (groups : List (String × List α))
    (u : String) (rows : List α) (hmem : (u, rows) ∈ groups) :
    ((u, rows) ∈ smallUnits groups ↔ rows.length < SMALL_UNIT_THRESHOLD)
    ∧ (rows.length = 9 →
        (u, rows) ∈ smallUnits groups ∧ (u, rows) ∉ standaloneUnits groups ∧
          ∀ x ∈ rows, x ∈ smallUnitRows groups)
    ∧ (rows.length = 10 →
        (u, rows) ∈ standaloneUnits groups ∧ (u, rows) ∉ smallUnits groups) := by
  refine ⟨?_, ?_, ?_⟩
  · simp [smallUnits, List.mem_filter, hmem]
  · intro h9
    refine ⟨?_, ?_, ?_⟩
    · simp [smallUnits, List.mem_filter, hmem, h9, SMALL_UNIT_THRESHOLD]
    · simp [standaloneUnits, List.mem_filter, h9, SMALL_UNIT_THRESHOLD]
    · intro x hx
      refine List.mem_flatMap.mpr ⟨(u, rows), ?_, hx⟩
      simp [smallUnits, List.mem_filter, hmem, h9, SMALL_UNIT_THRESHOLD]
  · intro h10
    refine ⟨?_, ?_⟩
    · simp [standaloneUnits, List.mem_filter, hmem, h10, SMALL_UNIT_THRESHOLD]
    · simp [smallUnits, List.mem_filter, h10, SMALL_UNIT_THRESHOLD]

/-- Witness for C4 on a grouping with one nine-row unit and one ten-row
unit. -/
theorem small_unit_threshold_split_witness :
    ("AB1CFAAA", List.range 9) ∈ smallUnits sampleGroups ∧
      ("AB1CFAAA", List.range 9) ∉ standaloneUnits sampleGroups ∧
      ("AB1CFBBB", List.range 10) ∈ standaloneUnits sampleGroups ∧
      ("AB1CFBBB", List.range 10) ∉ smallUnits sampleGroups := by
  have hA := (small_unit_threshold_split sampleGroups "AB1CFAAA" (List.range 9)
    (by decide)).2.1 (by decide)
  have hB := (small_unit_threshold_split sampleGroups "AB1CFBBB" (List.range 10)
    (by decide)).2.2 (by decide)
  exact ⟨hA.1, hA.2.1, hB.1, hB.2⟩

/-- Claim C10: `generate_roster_pdf` iterates pascodes in strictly ascending
lexicographic order, a pascode missing from the supplied pascode map is
skipped, and every pascode that is present in the map and has data is still
emitted — skipping one unit never aborts the rest. -/
theorem emitted_pascodes_sorted_skip
    (elig inel btz : List (List String)) (pmap : List (String × String)) :
    List.Sorted (· < ·) (emittedPascodes elig inel btz pmap)
    ∧ (∀ p, pmap.lookup p = none → p ∉ emittedPascodes elig inel btz pmap)
    ∧ (∀ p, p ∈ uniquePascodes elig inel btz →
        (pmap.lookup p).isSome = true → pascodeHasData elig inel btz p = true →
        p ∈ emittedPascodes elig inel btz pmap) := by
  have hsorted : List.Sorted (· ≤ ·) (uniquePascodes elig inel btz) :=
    List.sorted_insertionSort _ _
  have hnodup : (uniquePascodes elig inel btz).Nodup :=
    ((List.perm_insertionSort _ _).nodup_iff).mpr (List.nodup_dedup _)
  refine ⟨?_, ?_, ?_⟩
  · exact List.Sorted.lt_of_le
      (List.Pairwise.sublist (List.filter_sublist _) hsorted)
      (hnodup.filter _)
  · intro p hnone hmem
    have := (List.mem_filter.mp hmem).2
    simp [hnone] at this
  · intro p hmem hsome hdata
    exact List.mem_filter.mpr ⟨hmem, by simp [hsome, hdata]⟩

/-- Witness for C10: with two collected unit codes but a pascode map that
covers only one of them, the uncovered code is skipped yet the covered one
is still emitted. -/
theorem emitted_pascodes_sorted_skip_witness :
    "AB1CFBBB" ∉ emittedPascodes sampleEligRows [] [] samplePascodeMap ∧
      "AB1CFAAA" ∈ emittedPascodes sampleEligRows [] [] samplePascodeMap :=
  ⟨(emitted_pascodes_sorted_skip sampleEligRows [] [] samplePascodeMap).2.1
      "AB1CFBBB" (by decide),
   (emitted_pascodes_sorted_skip sampleEligRows [] [] samplePascodeMap).2.2
      "AB1CFAAA" ((List.mem_insertionSort _).mpr (by decide))
      (by decide) (by decide)⟩

end PACE
